import Mathlib

set_option maxRecDepth 100000

/-!
Verification development for the LMS multi-agent orchestration core
(`src/agents.py`, `src/ai_service.py`, `src/config.py`).

Shallow embedding conventions:
* JSON payloads (what `json.loads` returns) are the inductive `Json`;
  Python `dict.get` / subscript semantics, including the exceptions they
  raise on non-dict values, are `Json.get` / `Json.item`.
* Python exceptions are `PyErr`; a handler that can raise returns its
  performed effects together with `Option PyErr`.
* Database rows are plain structures; timestamps are rationals counting
  minutes (`datetime.utcnow()` differences; `timedelta(hours=1)` is 60).
* The external LLM call (`ai_service._chat`) is an opaque parameter of
  type `Option String`: `some t` models a reply `t`, `none` models the
  call raising, which the source catches and turns into the fallback.
* Scores are rationals; `round(x, 1)` is `round1`.
-/

/-- JSON values as produced by `json.loads` on a message body. -/
inductive Json where
  | null
  | bool (b : Bool)
  | num (q : ℚ)
  | str (s : String)
  | arr (elems : List Json)
  | obj (fields : List (String × Json))

/-- Python exceptions that the embedded handlers can raise. -/
inductive PyErr where
  | attributeError
  | keyError
  | typeError
  | sendError
  | runtimeError
deriving DecidableEq

/-- Python `data.get(key)`: on a dict returns the value or `None`
(here `Option Json`); on any non-dict value raises `AttributeError`. -/
def Json.get : Json → String → Except PyErr (Option Json)
  | .obj fields, key => .ok (fields.lookup key)
  | _, _ => .error .attributeError

/-- Python `data[key]`: raises `KeyError` when the key is absent. -/
def Json.item : Json → String → Except PyErr Json
  | .obj fields, key =>
    match fields.lookup key with
    | some v => .ok v
    | none => .error .keyError
  | _, _ => .error .typeError

/-- `data.get(key)` at a place where `data` is already known to be a
dict (the source has established this earlier in the same handler). -/
def Json.getSafe : Json → String → Option Json
  | .obj fields, key => fields.lookup key
  | _, _ => none

/-- Python truthiness of a value that may be absent (`None`). -/
def pyFalsy : Option Json → Bool
  | none => true
  | some .null => true
  | some (.bool b) => !b
  | some (.num q) => q == 0
  | some (.str s) => s == ""
  | some (.arr elems) => elems.isEmpty
  | some (.obj fields) => fields.isEmpty

/-- Python `value == "lit"` for a value obtained from `dict.get`. -/
def optIsStr : Option Json → String → Bool
  | some (.str s), t => s == t
  | _, _ => false

/-- Rendering of a numeric score inside an f-string.  Python prints a
decimal float; any injective rendering of the rational supports the
same theorems, so the numerator/denominator form is used. -/
def ratStr (q : ℚ) : String :=
  if q.den = 1 then toString q.num else toString q.num ++ "/" ++ toString q.den

/-- Python `str(value)` as used inside f-strings over message fields. -/
def pyStr : Json → String
  | .null => "None"
  | .bool true => "True"
  | .bool false => "False"
  | .num q => ratStr q
  | .str s => s
  | .arr _ => "<list>"
  | .obj _ => "<dict>"

/-- `str` of a `dict.get` result (absent key prints as `None`). -/
def pyStrOpt (o : Option Json) : String :=
  pyStr (o.getD Json.null)

/-! ### `src/config.py` -/

/-- config.RISK_SCORE_THRESHOLD: % below which a student is at risk. -/
def RISK_SCORE_THRESHOLD : ℚ := 50

/-- config.MONITORING_PERIOD (seconds between monitoring cycles). -/
def MONITORING_PERIOD : ℚ := 30

/-- config.ADAPTATION_PERIOD (seconds between adaptation sweeps). -/
def ADAPTATION_PERIOD : ℚ := 60

/-- config.AI_API_KEY (a hard-coded nonempty literal in the source). -/
def AI_API_KEY : String :=
  "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"

/-- config.AI_ENABLED = bool(AI_API_KEY).  The handlers below take the
flag as an explicit argument; this is its value in the shipped config. -/
def AI_ENABLED : Bool := !(AI_API_KEY == "")

/-! ### `src/ai_service.py` -/

/-- ai_service._fallback_recommendation: deterministic rule-based text,
branching on the score bucket but interpolating the exact score. -/
def _fallback_recommendation (topic_title : String) (score_pct : ℚ) : String :=
  if score_pct < 30 then
    s!"Рекомендуется повторить тему «{topic_title}» с самого начала. Текущий результат ({ratStr score_pct}%) показывает, что материал усвоен слабо. Начните с теоретической части, затем переходите к практике."
  else if score_pct < 50 then
    s!"Рекомендуется повторить тему «{topic_title}» (текущий результат: {ratStr score_pct}%). Обратите внимание на пояснения к вопросам, которые вызвали затруднения."
  else
    s!"Результат по теме «{topic_title}» — {ratStr score_pct}%. Для закрепления рекомендуется пройти тест повторно."

/-- Result of one recommendation step: the text stored, plus the (ghost)
observation of whether the external generator actually produced it. -/
structure GenResult where
  text : String
  usedExternal : Bool
deriving DecidableEq

/-- ai_service.generate_recommendation.  `chatResult` is the outcome of
the external `_chat` call: `some t` a reply, `none` the call raising
(caught by the source and resolved via the fallback). -/
def generate_recommendation (aiEnabled : Bool) (chatResult : Option String)
    (student_name topic_title : String) (score_pct : ℚ)
    (total_answers correct_answers : ℕ) : GenResult :=
  if !aiEnabled then ⟨_fallback_recommendation topic_title score_pct, false⟩
  else
    match chatResult with
    | some text => ⟨text, true⟩
    | none => ⟨_fallback_recommendation topic_title score_pct, false⟩

/-- The score bucket named by the spec (< 30%, 30-50%, >= 50%); it is
exactly the branching structure of `_fallback_recommendation`. -/
def scoreBucket (score_pct : ℚ) : ℕ :=
  if score_pct < 30 then 0 else if score_pct < 50 then 1 else 2

/-! ### Rows and inputs shared by the workers.

The persistence schema (`models.py`) is outside `src/`; the structures
below carry exactly the fields the `src/agents.py` constructor calls
populate, matching the spec's §3 data model. -/

/-- A `StudentAnswer` row as read by the workers. -/
structure Answer where
  topic_id : ℕ
  is_correct : Bool
  created_at : ℚ
deriving DecidableEq

/-- A `User` row with role and display names. -/
structure Student where
  id : ℕ
  username : String
  full_name : String
  role : String
deriving DecidableEq

/-- Python `student.full_name or student.username`. -/
def nameOf (student : Student) : String :=
  if student.full_name == "" then student.username else student.full_name

/-- Python `round(x, 1)`. -/
def round1 (q : ℚ) : ℚ := (round (q * 10) : ℤ) / 10

/-- Overall percentage: `round(correct / total * 100, 1)`. -/
def overallScore (answers : List Answer) : ℚ :=
  round1 (((answers.filter (fun a => a.is_correct)).length : ℚ) / answers.length * 100)

/-- Percentage over the last 24 hours, `None` when no recent answers. -/
def recentScore (now : ℚ) (answers : List Answer) : Option ℚ :=
  let recent := answers.filter (fun a => a.created_at ≥ now - 24 * 60)
  if recent.isEmpty then none
  else some (round1 (((recent.filter (fun a => a.is_correct)).length : ℚ) / recent.length * 100))

/-- Severity: `"danger" if score < 30 else "warning"` (agents.py:244). -/
def severityOf (score : ℚ) : String :=
  if score < 30 then "danger" else "warning"

/-! ### MonitoringAgent (src/agents.py:205-281) -/

/-- An `AgentReport` row as written by the MonitoringAgent. -/
structure AgentReport where
  agent_type : String
  student_id : ℕ
  message : String
  severity : String
deriving DecidableEq

/-- The `student_risk` event payload sent to the orchestrator. -/
structure RiskEvent where
  student_id : ℕ
  student_name : String
  score : ℚ
  recent_score : Option ℚ
  severity : String
deriving DecidableEq

/-- One student's slice of `MonitorBehaviour.run` (agents.py:216-273):
skip on zero answers; below threshold, dedup against the most recent
monitoring report (`lastReportAt`), then add a report and send one
`student_risk` event together. -/
def monitorStudent (now : ℚ) (student : Student) (answers : List Answer)
    (lastReportAt : Option ℚ) : Option (AgentReport × RiskEvent) :=
  if answers.isEmpty then none
  else
    let total := answers.length
    let correct := (answers.filter (fun a => a.is_correct)).length
    let score := overallScore answers
    let recent_score := recentScore now answers
    if score < RISK_SCORE_THRESHOLD then
      let dup : Bool :=
        match lastReportAt with
        | some t => if t > now - 60 then true else false
        | none => false
      if dup then none
      else
        let severity := severityOf score
        let base := s!"Студент «{nameOf student}» имеет общий балл {ratStr score}% ({correct}/{total})."
        let msg_text :=
          match recent_score with
          | some rs => base ++ s!" За последние 24 ч: {ratStr rs}%."
          | none => base
        some (⟨"monitoring", student.id, msg_text, severity⟩,
              ⟨student.id, nameOf student, score, recent_score, severity⟩)
    else none

/-- Outcome of one monitoring cycle: the reports that reached the final
`db.session.commit()`, the events already sent over XMPP, and the
exception (if any) that aborted the cycle. -/
structure CycleResult where
  committedReports : List AgentReport
  sentEvents : List RiskEvent
  err : Option PyErr
deriving DecidableEq

/-- The per-student loop of `MonitorBehaviour.run`.  `failsOn` injects a
raise while processing a given student; an uncaught raise aborts the
loop, so pending (uncommitted) reports are discarded while events
already sent stay sent. -/
def monitorLoop (now : ℚ) (answersOf : ℕ → List Answer)
    (lastReportAt : ℕ → Option ℚ) (failsOn : ℕ → Bool) :
    List Student → List AgentReport → List RiskEvent → CycleResult
  | [], pending, sent => ⟨pending, sent, none⟩
  | s :: rest, pending, sent =>
    if failsOn s.id then ⟨[], sent, some PyErr.runtimeError⟩
    else
      match monitorStudent now s (answersOf s.id) (lastReportAt s.id) with
      | some re =>
        monitorLoop now answersOf lastReportAt failsOn rest (pending ++ [re.1]) (sent ++ [re.2])
      | none => monitorLoop now answersOf lastReportAt failsOn rest pending sent

/-- One full monitoring cycle over `User.query.filter_by(role="student")`. -/
def monitorCycle (now : ℚ) (students : List Student) (answersOf : ℕ → List Answer)
    (lastReportAt : ℕ → Option ℚ) (failsOn : ℕ → Bool) : CycleResult :=
  monitorLoop now answersOf lastReportAt failsOn
    (students.filter (fun s => s.role == "student")) [] []

/-- The report/event pairs a list of students would produce when every
student is processed (no raise anywhere). -/
def cycleOutputs (now : ℚ) (answersOf : ℕ → List Answer)
    (lastReportAt : ℕ → Option ℚ) (l : List Student) : List (AgentReport × RiskEvent) :=
  l.filterMap (fun s => monitorStudent now s (answersOf s.id) (lastReportAt s.id))

/-! ### AdaptationAgent (src/agents.py:288-490) -/

/-- An `AdaptationLog` row (a RecommendationRecord); `topic_id = none`
is the untagged "general program" record. -/
structure AdaptationLog where
  student_id : ℕ
  topic_id : Option ℕ
  recommendation : String
  ai_generated : Bool
  created_at : ℚ
deriving DecidableEq

/-- Per-topic tallies built by `topic_stats.setdefault` (agents.py:327-330). -/
structure TopicStat where
  total : ℕ
  correct : ℕ
deriving DecidableEq

/-- One `setdefault`-and-increment step over an answer. -/
def bumpStat (acc : List (ℕ × TopicStat)) (a : Answer) : List (ℕ × TopicStat) :=
  if acc.any (fun p => p.1 == a.topic_id) then
    acc.map (fun p =>
      if p.1 == a.topic_id then
        (p.1, ⟨p.2.total + 1, p.2.correct + (if a.is_correct then 1 else 0)⟩)
      else p)
  else acc ++ [(a.topic_id, ⟨1, if a.is_correct then 1 else 0⟩)]

/-- `topic_stats` in insertion order (Python dicts preserve it). -/
def topicStats (answers : List Answer) : List (ℕ × TopicStat) :=
  answers.foldl bumpStat []

/-- `st["correct"] / st["total"] * 100 if st["total"] else 0`. -/
def topicPct (st : TopicStat) : ℚ :=
  if st.total = 0 then 0 else (st.correct : ℚ) / st.total * 100

/-- The `recommendations_ready` completion event (agents.py:377-387). -/
structure ReadyEvent where
  student_id : ℕ
  recommendations_count : ℕ
  ai_used : Bool
deriving DecidableEq

/-- Output of the reactive handler: the rows committed, the (ghost)
per-row record of whether the external generator produced the text, and
the completion event sent back to the orchestrator. -/
structure AdaptOutput where
  newLogs : List AdaptationLog
  usedExternal : List Bool
  reply : ReadyEvent
deriving DecidableEq

/-- `AdaptationAgent.ListenBehaviour._generate_recommendations`
(agents.py:308-387).  `chatResult title pct` is the external call
outcome for the prompt built from that topic and score.  Note the
source performs no lookup of existing `AdaptationLog` rows: the handler
does not take the current table as an input at all. -/
def _generate_recommendations (now : ℚ) (aiEnabled : Bool)
    (chatResult : String → ℚ → Option String)
    (student_id : ℕ) (student_name : String) (score : ℚ)
    (answers : List Answer) (topics : List (ℕ × String)) : AdaptOutput :=
  let weak_topics : List (ℕ × String × ℚ × ℕ × ℕ) :=
    (topicStats answers).filterMap (fun p =>
      let pct := topicPct p.2
      if pct < RISK_SCORE_THRESHOLD then
        (topics.lookup p.1).map (fun title => (p.1, title, round1 pct, p.2.total, p.2.correct))
      else none)
  if !weak_topics.isEmpty then
    let recs := weak_topics.map (fun w =>
      let g := generate_recommendation aiEnabled (chatResult w.2.1 w.2.2.1)
        student_name w.2.1 w.2.2.1 w.2.2.2.1 w.2.2.2.2
      (AdaptationLog.mk student_id (some w.1) g.text aiEnabled now, g.usedExternal))
    ⟨recs.map Prod.fst, recs.map Prod.snd, ⟨student_id, recs.length, aiEnabled⟩⟩
  else if score < RISK_SCORE_THRESHOLD then
    let g := generate_recommendation aiEnabled (chatResult "общая программа" score)
      student_name "общая программа" score answers.length
      (answers.filter (fun a => a.is_correct)).length
    ⟨[⟨student_id, none, g.text, aiEnabled, now⟩], [g.usedExternal], ⟨student_id, 1, aiEnabled⟩⟩
  else ⟨[], [], ⟨student_id, 0, aiEnabled⟩⟩

/-- `order_by(created_at.desc()).first()` over a list of timestamps. -/
def maxTime : List ℚ → Option ℚ
  | [] => none
  | t :: ts => some (ts.foldl max t)

/-- One (topic, stat) step of the periodic sweep (agents.py:451-482):
skip non-weak topics, skip when the most recent existing row for this
(student, topic) is within 2 hours, skip unknown topics, else generate
and add a row. -/
def sweepTopic (now : ℚ) (aiEnabled : Bool) (chatResult : String → ℚ → Option String)
    (student : Student) (topics : List (ℕ × String)) (logs : List AdaptationLog)
    (p : ℕ × TopicStat) : Option AdaptationLog :=
  let pct := topicPct p.2
  if pct ≥ RISK_SCORE_THRESHOLD then none
  else
    let existingTimes :=
      (logs.filter (fun l => l.student_id == student.id && l.topic_id == some p.1)).map
        AdaptationLog.created_at
    let skip : Bool :=
      match maxTime existingTimes with
      | some t => if t > now - 120 then true else false
      | none => false
    if skip then none
    else
      match topics.lookup p.1 with
      | none => none
      | some title =>
        let g := generate_recommendation aiEnabled (chatResult title (round1 pct))
          (nameOf student) title (round1 pct) p.2.total p.2.correct
        some ⟨student.id, some p.1, g.text, aiEnabled, now⟩

/-- One student's slice of `PeriodicAdaptBehaviour.run` (agents.py:440-482). -/
def periodicSweepStudent (now : ℚ) (aiEnabled : Bool)
    (chatResult : String → ℚ → Option String) (student : Student)
    (answers : List Answer) (topics : List (ℕ × String))
    (logs : List AdaptationLog) : List AdaptationLog :=
  if answers.isEmpty then []
  else (topicStats answers).filterMap (sweepTopic now aiEnabled chatResult student topics logs)

/-- The spec's adaptation dedup invariant: no two per-topic rows for the
same (student, topic) lie within the 2-hour window of each other. -/
def adaptDedupOK (logs : List AdaptationLog) : Prop :=
  ∀ l1 ∈ logs, ∀ l2 ∈ logs,
    l1 ≠ l2 → l1.student_id = l2.student_id → l1.topic_id = l2.topic_id →
    l1.topic_id ≠ none → |l1.created_at - l2.created_at| ≥ 120

/-! ### OrchestratorAgent (src/agents.py:58-198) -/

/-- Observable effects of one pass of `DispatchBehaviour.run`:
`logEvent`/`logDecision` are the two kinds of `OrchestratorLog` writes,
`sendAdapt`/`sendNotify` the messages addressed to the adaptation and
notification agents, `logWarning` the non-persistent warning for an
unparseable body. -/
inductive RAction where
  | logWarning
  | logEvent (event_type : Json) (source_agent : String) (student_id : Option Json) (payload : Json)
  | logDecision (event_type : String) (target_agent : String) (student_id : Option Json)
      (decision : String)
  | sendAdapt (body : Json)
  | sendNotify (body : Json)

def RAction.isLogEvent : RAction → Bool
  | .logEvent .. => true
  | _ => false

def RAction.isLogDecision : RAction → Bool
  | .logDecision .. => true
  | _ => false

def RAction.isSendAdapt : RAction → Bool
  | .sendAdapt _ => true
  | _ => false

def RAction.isSendNotify : RAction → Bool
  | .sendNotify _ => true
  | _ => false

/-- `DispatchBehaviour._handle_student_risk` (agents.py:98-136): log the
decision, then send to adaptation and to notification, in that order,
with no exception handling around the sends.  `adaptOk`/`notifyOk`
model whether each `await self.send(...)` returns or raises. -/
def handleStudentRisk (data : Json) (adaptOk notifyOk : Bool) :
    List RAction × Option PyErr :=
  match data.item "student_id" with
  | .error e => ([], some e)
  | .ok student_id =>
    match data.get "student_name", data.get "score", data.get "severity" with
    | .ok nameO, .ok scoreO, .ok sevO =>
      let student_name := nameO.getD (Json.str "")
      let score := scoreO.getD (Json.num 0)
      let severity := sevO.getD (Json.str "warning")
      let sc := pyStr score
      let logActs : List RAction :=
        [.logDecision "student_risk" "monitoring" (some student_id)
          (s!"Score={sc}%, dispatching to adaptation and notification")]
      let adaptBody := Json.obj [("type", Json.str "generate_recommendations"),
        ("student_id", student_id), ("student_name", student_name), ("score", score)]
      let acts1 := logActs ++ [RAction.sendAdapt adaptBody]
      if !adaptOk then (acts1, some PyErr.sendError)
      else
        let notifyBody := Json.obj [("type", Json.str "create_alert"),
          ("student_id", student_id), ("student_name", student_name),
          ("score", score), ("severity", severity)]
        let acts2 := acts1 ++ [RAction.sendNotify notifyBody]
        if !notifyOk then (acts2, some PyErr.sendError) else (acts2, none)
    | _, _, _ => ([], some PyErr.attributeError)

/-- `_handle_recommendations_ready` (agents.py:138-152): one decision
log entry, no dispatch. -/
def handleRecommendationsReady (data : Json) : List RAction :=
  let student_id := data.getSafe "student_id"
  let count := (data.getSafe "recommendations_count").getD (Json.num 0)
  let ai_used := (data.getSafe "ai_used").getD (Json.bool false)
  let cnt := pyStr count
  let label := if pyFalsy (some ai_used) then "no" else "yes"
  [.logDecision "recommendations_ready" "adaptation" student_id
    (s!"Generated {cnt} recommendations (AI={label})")]

/-- `_handle_adaptation_analysis` (agents.py:154-162): one decision log
entry, no dispatch. -/
def handleAdaptationAnalysis (data : Json) : List RAction :=
  let student_id := data.getSafe "student_id"
  let sd := pyStr ((data.getSafe "suggested_difficulty").getD (Json.num 1))
  [.logDecision "adaptation_analysis" "adaptation" student_id (s!"Suggested difficulty={sd}")]

/-- One pass of `DispatchBehaviour.run` (agents.py:65-96) on a received
message.  `body = none` models `json.loads` raising (caught: warning
logged, message dropped).  Otherwise `data.get("type")` runs first and
its `AttributeError` on non-dict values is uncaught; then the inbound
event is logged unconditionally and the router branches. -/
def dispatchRun (body : Option Json) (sender : String) (adaptOk notifyOk : Bool) :
    List RAction × Option PyErr :=
  match body with
  | none => ([RAction.logWarning], none)
  | some data =>
    match data.get "type" with
    | .error e => ([], some e)
    | .ok etO =>
      let etJson := if pyFalsy etO then Json.str "unknown" else etO.getD (Json.str "unknown")
      let inbound := RAction.logEvent etJson sender (data.getSafe "student_id") data
      if optIsStr etO "student_risk" then
        let p := handleStudentRisk data adaptOk notifyOk
        (inbound :: p.1, p.2)
      else if optIsStr etO "recommendations_ready" then
        (inbound :: handleRecommendationsReady data, none)
      else if optIsStr etO "adaptation_analysis" then
        (inbound :: handleAdaptationAnalysis data, none)
      else
        ([inbound], none)

/-! ### NotificationAgent (src/agents.py:497-537) -/

/-- The `AgentReport` row written by the NotificationAgent (an
AlertRecord in the spec); `student_id` and `severity` hold the raw
values taken from the message dict. -/
structure AlertRecord where
  agent_type : String
  student_id : Option Json
  message : String
  severity : Json

/-- One pass of `NotificationAgent.ListenBehaviour.run`
(agents.py:502-533): drop unparseable bodies and non-`create_alert`
types, otherwise persist exactly one report, defaulting severity to
`"warning"`. -/
def notificationRun (body : Option Json) : Except PyErr (List AlertRecord) :=
  match body with
  | none => .ok []
  | some data =>
    match data.get "type" with
    | .error e => .error e
    | .ok etO =>
      if !(optIsStr etO "create_alert") then .ok []
      else
        let nm := pyStrOpt (data.getSafe "student_name")
        let sc := pyStrOpt (data.getSafe "score")
        .ok [⟨"notification", data.getSafe "student_id",
          s!"Уведомление: студент «{nm}» находится в зоне риска (балл: {sc}%).",
          (data.getSafe "severity").getD (Json.str "warning")⟩]

/-! ## Theorems -/

/-- Claim C5: severity as computed at agents.py:244 is a pure function
of the score: `danger` precisely when the score is below 30, `warning`
otherwise; in particular score 30 gives `warning` and 29.9 `danger`. -/
theorem c5_severity_boundary :
    (∀ s : ℚ, (severityOf s = "danger" ↔ s < 30) ∧ (30 ≤ s → severityOf s = "warning")) ∧
    severityOf 30 = "warning" ∧ severityOf (299/10) = "danger" := by
  refine ⟨fun s => ⟨⟨fun h => ?_, fun h => by simp [severityOf, h]⟩, fun h => ?_⟩, ?_, ?_⟩
  · by_contra hlt
    simp [severityOf, hlt] at h
  · have hlt : ¬ s < 30 := not_lt.mpr h
    simp [severityOf, hlt]
  · simp [severityOf]
  · with_unfolding_all decide

/-- Claim C7 (amended): a message body on which `json.loads` raises is
logged as a warning and dropped: the router performs no log write, no
dispatch, and raises nothing, whatever the transport state. -/
theorem c7_unparseable_dropped (sender : String) (adaptOk notifyOk : Bool) :
    dispatchRun none sender adaptOk notifyOk = ([RAction.logWarning], none) ∧
    (dispatchRun none sender adaptOk notifyOk).1.countP RAction.isSendAdapt = 0 ∧
    (dispatchRun none sender adaptOk notifyOk).1.countP RAction.isSendNotify = 0 ∧
    (dispatchRun none sender adaptOk notifyOk).2 = none :=
  ⟨rfl, rfl, rfl, rfl⟩

/-- Claim C7, counterexample: a body that PARSES but is malformed (the
JSON value `42`, not an object) makes `data.get("type")` raise an
uncaught `AttributeError`: the handler crashes, nothing is logged and
nothing is dispatched, contradicting the claim that malformed bodies
are logged and discarded without crashing the loop. -/
theorem c7_unparseable_cex :
    dispatchRun (some (Json.num 42)) "monitoring@localhost" true true =
      ([], some PyErr.attributeError) := rfl

/-- Claim C8 (amended): with the external generator unavailable
(disabled, or raising so that the source falls back), the produced text
is the deterministic `_fallback_recommendation`, a pure function of the
topic title and the exact score: identical inputs give textually
identical output, and the student name and answer counts do not affect
it. -/
theorem c8_fallback_exact_score (chatResult : Option String) (name1 name2 title : String)
    (pct : ℚ) (t1 c1 t2 c2 : ℕ) :
    (generate_recommendation false chatResult name1 title pct t1 c1).text =
      _fallback_recommendation title pct ∧
    (generate_recommendation true none name1 title pct t1 c1).text =
      _fallback_recommendation title pct ∧
    (generate_recommendation false chatResult name1 title pct t1 c1).text =
      (generate_recommendation false chatResult name2 title pct t2 c2).text :=
  ⟨rfl, rfl, rfl⟩

/-- Claim C8, counterexample: 35% and 45% lie in the same score bucket
(30-50%), yet the fallback texts differ, because the exact score is
interpolated into the text: the fallback is not a function of the
bucket and title alone. -/
theorem c8_fallback_bucket_cex :
    scoreBucket 35 = scoreBucket 45 ∧
    _fallback_recommendation "Алгебра" 35 ≠ _fallback_recommendation "Алгебра" 45 := by
  constructor
  · with_unfolding_all decide
  · with_unfolding_all decide

/-- Claim C3 (amended): the `recommendations_ready` completion event
carries `recommendations_count` equal to the number of rows just
produced, and `ai_used` equal to the `config.AI_ENABLED` flag (not to
whether the external generator actually produced the texts). -/
theorem c3_ready_event_count (now : ℚ) (aiEnabled : Bool)
    (chatResult : String → ℚ → Option String) (student_id : ℕ) (student_name : String)
    (score : ℚ) (answers : List Answer) (topics : List (ℕ × String)) :
    (_generate_recommendations now aiEnabled chatResult student_id student_name score
      answers topics).reply.recommendations_count =
      (_generate_recommendations now aiEnabled chatResult student_id student_name score
        answers topics).newLogs.length ∧
    (_generate_recommendations now aiEnabled chatResult student_id student_name score
      answers topics).reply.ai_used = aiEnabled ∧
    (_generate_recommendations now aiEnabled chatResult student_id student_name score
      answers topics).reply.student_id = student_id := by
  simp only [_generate_recommendations]
  split_ifs <;> simp

/-- Claim C3, counterexample: with the generator enabled but its call
raising, the single produced row is the rule-based fallback text and no
row used the external generator, yet the completion event still reports
`ai_used = true`: the flag reflects configuration, not actual use. -/
theorem c3_ready_event_cex :
    (_generate_recommendations 0 true (fun _ _ => none) 1 "A" 0 [⟨1, false, 0⟩]
      [(1, "T")]).usedExternal = [false] ∧
    (_generate_recommendations 0 true (fun _ _ => none) 1 "A" 0 [⟨1, false, 0⟩]
      [(1, "T")]).reply.ai_used = true ∧
    (_generate_recommendations 0 true (fun _ _ => none) 1 "A" 0 [⟨1, false, 0⟩]
      [(1, "T")]).newLogs.map AdaptationLog.recommendation =
      [_fallback_recommendation "T" 0] := by
  refine ⟨?_, ?_, ?_⟩ <;> with_unfolding_all decide

/-- Claim C10: a `create_alert` command whose body is a JSON object
without a `severity` key is still persisted as exactly one report, with
the default severity `"warning"` (agents.py:530), not dropped and not
an error. -/
theorem c10_severity_default (fs : List (String × Json))
    (htype : fs.lookup "type" = some (Json.str "create_alert"))
    (hsev : fs.lookup "severity" = none) :
    notificationRun (some (Json.obj fs)) =
      .ok [⟨"notification", fs.lookup "student_id",
        (let nm := pyStrOpt (fs.lookup "student_name")
         let sc := pyStrOpt (fs.lookup "score")
         s!"Уведомление: студент «{nm}» находится в зоне риска (балл: {sc}%)."),
        Json.str "warning"⟩] := by
  simp [notificationRun, Json.get, Json.getSafe, htype, hsev, optIsStr]

/-- Claim C10, witness: a concrete `create_alert` body with no
`severity` key yields one report with severity `"warning"`. -/
theorem c10_severity_default_witness :
    notificationRun (some (Json.obj [("type", Json.str "create_alert"),
      ("student_id", Json.num 7), ("student_name", Json.str "Иван"),
      ("score", Json.num 25)])) =
      .ok [⟨"notification", some (Json.num 7),
        "Уведомление: студент «Иван» находится в зоне риска (балл: 25%).",
        Json.str "warning"⟩] := by
  have h := c10_severity_default [("type", Json.str "create_alert"),
    ("student_id", Json.num 7), ("student_name", Json.str "Иван"),
    ("score", Json.num 25)] rfl rfl
  rw [h]
  with_unfolding_all rfl

theorem foldl_max_le_init (l : List ℚ) (a : ℚ) : a ≤ l.foldl max a := by
  induction l generalizing a with
  | nil => simp
  | cons b t ih =>
    rw [List.foldl_cons]
    exact le_trans (le_max_left a b) (ih (max a b))

theorem mem_le_foldl_max (l : List ℚ) (a x : ℚ) (hx : x ∈ l) : x ≤ l.foldl max a := by
  induction l generalizing a with
  | nil => cases hx
  | cons b t ih =>
    rw [List.foldl_cons]
    rcases List.mem_cons.mp hx with h | h
    · subst h
      exact le_trans (le_max_right a x) (foldl_max_le_init t (max a x))
    · exact ih (max a b) h

theorem le_maxTime (ts : List ℚ) (x m : ℚ) (hx : x ∈ ts) (hm : maxTime ts = some m) :
    x ≤ m := by
  cases ts with
  | nil => cases hx
  | cons t rest =>
    simp only [maxTime, Option.some.injEq] at hm
    subst hm
    rcases List.mem_cons.mp hx with h | h
    · subst h
      exact foldl_max_le_init rest x
    · exact mem_le_foldl_max rest t x h

theorem maxTime_eq_none (ts : List ℚ) (h : maxTime ts = none) : ts = [] := by
  cases ts with
  | nil => rfl
  | cons t rest => simp [maxTime] at h

theorem monitorStudent_nil (now : ℚ) (student : Student) (lastReportAt : Option ℚ) :
    monitorStudent now student [] lastReportAt = none := rfl

theorem monitorStudent_ids (now : ℚ) (student : Student) (answers : List Answer)
    (lastReportAt : Option ℚ) (r : AgentReport) (e : RiskEvent)
    (h : monitorStudent now student answers lastReportAt = some (r, e)) :
    r.student_id = student.id ∧ e.student_id = student.id := by
  simp only [monitorStudent] at h
  split_ifs at h with h1 h2 h3 <;> cases h <;> exact ⟨rfl, rfl⟩

theorem monitorLoop_no_fail (now : ℚ) (answersOf : ℕ → List Answer)
    (lastReportAt : ℕ → Option ℚ) (failsOn : ℕ → Bool) (l : List Student)
    (h : ∀ s ∈ l, failsOn s.id = false) :
    ∀ (pending : List AgentReport) (sent : List RiskEvent),
      monitorLoop now answersOf lastReportAt failsOn l pending sent =
        ⟨pending ++ (cycleOutputs now answersOf lastReportAt l).map Prod.fst,
         sent ++ (cycleOutputs now answersOf lastReportAt l).map Prod.snd, none⟩ := by
  induction l with
  | nil =>
    intro pending sent
    simp [monitorLoop, cycleOutputs]
  | cons s rest ih =>
    intro pending sent
    have hs : failsOn s.id = false := h s (List.mem_cons_self s rest)
    have hrest : ∀ x ∈ rest, failsOn x.id = false :=
      fun x hx => h x (List.mem_cons_of_mem s hx)
    cases hms : monitorStudent now s (answersOf s.id) (lastReportAt s.id) with
    | some re =>
      simp only [monitorLoop, hs, Bool.false_eq_true, if_false, hms]
      rw [ih hrest (pending ++ [re.1]) (sent ++ [re.2])]
      simp [cycleOutputs, List.filterMap_cons, hms]
    | none =>
      simp only [monitorLoop, hs, Bool.false_eq_true, if_false, hms]
      rw [ih hrest pending sent]
      simp [cycleOutputs, List.filterMap_cons, hms]

theorem monitorLoop_fail (now : ℚ) (answersOf : ℕ → List Answer)
    (lastReportAt : ℕ → Option ℚ) (failsOn : ℕ → Bool) (l : List Student)
    (h : ∃ s ∈ l, failsOn s.id = true) :
    ∀ (pending : List AgentReport) (sent : List RiskEvent),
      (monitorLoop now answersOf lastReportAt failsOn l pending sent).committedReports = [] ∧
      (monitorLoop now answersOf lastReportAt failsOn l pending sent).err ≠ none := by
  induction l with
  | nil =>
    obtain ⟨s, hs, _⟩ := h
    cases hs
  | cons s rest ih =>
    intro pending sent
    by_cases hf : failsOn s.id = true
    · simp [monitorLoop, hf]
    · have hf' : failsOn s.id = false := eq_false_of_ne_true hf
      obtain ⟨x, hx, hxf⟩ := h
      rcases List.mem_cons.mp hx with rfl | hx'
      · exact absurd hxf hf
      · have hrest : ∃ x ∈ rest, failsOn x.id = true := ⟨x, hx', hxf⟩
        cases hms : monitorStudent now s (answersOf s.id) (lastReportAt s.id) with
        | some re =>
          simp only [monitorLoop, hf', Bool.false_eq_true, if_false, hms]
          exact ih hrest (pending ++ [re.1]) (sent ++ [re.2])
        | none =>
          simp only [monitorLoop, hf', Bool.false_eq_true, if_false, hms]
          exact ih hrest pending sent

theorem monitorLoop_reports_mem (now : ℚ) (answersOf : ℕ → List Answer)
    (lastReportAt : ℕ → Option ℚ) (failsOn : ℕ → Bool) (l : List Student) :
    ∀ (pending : List AgentReport) (sent : List RiskEvent) (r : AgentReport),
      r ∈ (monitorLoop now answersOf lastReportAt failsOn l pending sent).committedReports →
      r ∈ pending ∨ ∃ s ∈ l, ∃ e,
        monitorStudent now s (answersOf s.id) (lastReportAt s.id) = some (r, e) := by
  induction l with
  | nil =>
    intro pending sent r hr
    simp only [monitorLoop] at hr
    exact Or.inl hr
  | cons s rest ih =>
    intro pending sent r hr
    by_cases hf : failsOn s.id = true
    · simp [monitorLoop, hf] at hr
    · have hf' : failsOn s.id = false := eq_false_of_ne_true hf
      cases hms : monitorStudent now s (answersOf s.id) (lastReportAt s.id) with
      | some re =>
        simp only [monitorLoop, hf', Bool.false_eq_true, if_false, hms] at hr
        rcases ih (pending ++ [re.1]) (sent ++ [re.2]) r hr with hp | ⟨x, hx, e, he⟩
        · rcases List.mem_append.mp hp with hin | hone
          · exact Or.inl hin
          · right
            refine ⟨s, List.mem_cons_self s rest, re.2, ?_⟩
            have hre : r = re.1 := by simpa using hone
            rw [hre]
            exact hms
        · exact Or.inr ⟨x, List.mem_cons_of_mem s hx, e, he⟩
      | none =>
        simp only [monitorLoop, hf', Bool.false_eq_true, if_false, hms] at hr
        rcases ih pending sent r hr with hp | ⟨x, hx, e, he⟩
        · exact Or.inl hp
        · exact Or.inr ⟨x, List.mem_cons_of_mem s hx, e, he⟩

theorem monitorLoop_events_mem (now : ℚ) (answersOf : ℕ → List Answer)
    (lastReportAt : ℕ → Option ℚ) (failsOn : ℕ → Bool) (l : List Student) :
    ∀ (pending : List AgentReport) (sent : List RiskEvent) (e : RiskEvent),
      e ∈ (monitorLoop now answersOf lastReportAt failsOn l pending sent).sentEvents →
      e ∈ sent ∨ ∃ s ∈ l, ∃ r,
        monitorStudent now s (answersOf s.id) (lastReportAt s.id) = some (r, e) := by
  induction l with
  | nil =>
    intro pending sent e he
    simp only [monitorLoop] at he
    exact Or.inl he
  | cons s rest ih =>
    intro pending sent e he
    by_cases hf : failsOn s.id = true
    · simp only [monitorLoop, hf, if_true] at he
      exact Or.inl he
    · have hf' : failsOn s.id = false := eq_false_of_ne_true hf
      cases hms : monitorStudent now s (answersOf s.id) (lastReportAt s.id) with
      | some re =>
        simp only [monitorLoop, hf', Bool.false_eq_true, if_false, hms] at he
        rcases ih (pending ++ [re.1]) (sent ++ [re.2]) e he with hp | ⟨x, hx, r, hrx⟩
        · rcases List.mem_append.mp hp with hin | hone
          · exact Or.inl hin
          · right
            refine ⟨s, List.mem_cons_self s rest, re.1, ?_⟩
            have hre : e = re.2 := by simpa using hone
            rw [hre]
            exact hms
        · exact Or.inr ⟨x, List.mem_cons_of_mem s hx, r, hrx⟩
      | none =>
        simp only [monitorLoop, hf', Bool.false_eq_true, if_false, hms] at he
        rcases ih pending sent e he with hp | ⟨x, hx, r, hrx⟩
        · exact Or.inl hp
        · exact Or.inr ⟨x, List.mem_cons_of_mem s hx, r, hrx⟩

/-- Claim C9: a student with zero recorded answers is skipped entirely
by the monitoring cycle: no performance-alert report and no RiskEvent
of that cycle refers to them. -/
theorem c9_zero_answers (now : ℚ) (students : List Student) (answersOf : ℕ → List Answer)
    (lastReportAt : ℕ → Option ℚ) (failsOn : ℕ → Bool) (sid : ℕ)
    (h : answersOf sid = []) :
    (monitorCycle now students answersOf lastReportAt failsOn).committedReports.all
      (fun r => r.student_id != sid) = true ∧
    (monitorCycle now students answersOf lastReportAt failsOn).sentEvents.all
      (fun e => e.student_id != sid) = true := by
  constructor
  · rw [List.all_eq_true]
    intro r hr
    rcases monitorLoop_reports_mem now answersOf lastReportAt failsOn _ [] [] r hr with
      hp | ⟨s, _, e, he⟩
    · cases hp
    · rw [bne_iff_ne]
      intro heq
      have hid := (monitorStudent_ids now s (answersOf s.id) (lastReportAt s.id) r e he).1
      rw [hid] at heq
      rw [heq, h, monitorStudent_nil] at he
      cases he
  · rw [List.all_eq_true]
    intro e he
    rcases monitorLoop_events_mem now answersOf lastReportAt failsOn _ [] [] e he with
      hp | ⟨s, _, r, hre⟩
    · cases hp
    · rw [bne_iff_ne]
      intro heq
      have hid := (monitorStudent_ids now s (answersOf s.id) (lastReportAt s.id) r e hre).2
      rw [hid] at heq
      rw [heq, h, monitorStudent_nil] at hre
      cases hre

/-- Claim C9, witness: a cycle over two students where student 2 has no
answers refers to student 2 in no report and no event. -/
theorem c9_zero_answers_witness :
    (monitorCycle 100 [⟨1, "u1", "A", "student"⟩, ⟨2, "u2", "B", "student"⟩]
      (fun i => if i == 1 then [⟨1, false, 0⟩] else []) (fun _ => none)
      (fun _ => false)).committedReports.all (fun r => r.student_id != 2) = true ∧
    (monitorCycle 100 [⟨1, "u1", "A", "student"⟩, ⟨2, "u2", "B", "student"⟩]
      (fun i => if i == 1 then [⟨1, false, 0⟩] else []) (fun _ => none)
      (fun _ => false)).sentEvents.all (fun e => e.student_id != 2) = true :=
  c9_zero_answers 100 _ _ _ _ 2 rfl

/-- Claim C6: for a student with answers and an overall score below the
risk threshold, the scan skips report and event when the most recent
monitoring report is within the last hour, and produces them when it is
older (e.g. 61 minutes). -/
theorem c6_monitoring_dedup (now : ℚ) (student : Student) (answers : List Answer) (t : ℚ)
    (hne : answers ≠ []) (hscore : overallScore answers < RISK_SCORE_THRESHOLD) :
    (t > now - 60 → monitorStudent now student answers (some t) = none) ∧
    (¬ t > now - 60 → (monitorStudent now student answers (some t)).isSome = true) := by
  have hempty : answers.isEmpty = false := by
    cases answers with
    | nil => exact absurd rfl hne
    | cons a l => rfl
  constructor
  · intro ht
    simp [monitorStudent, hempty, hscore, ht]
  · intro ht
    simp [monitorStudent, hempty, hscore, ht]

/-- Claim C6, witness: at-risk student, last report 30 minutes old:
nothing is produced; last report 61 minutes old: report and event are
produced. -/
theorem c6_monitoring_dedup_witness :
    monitorStudent 1000 ⟨1, "u", "A", "student"⟩ [⟨1, false, 999⟩] (some 970) = none ∧
    (monitorStudent 1000 ⟨1, "u", "A", "student"⟩ [⟨1, false, 999⟩] (some 939)).isSome = true := by
  constructor
  · exact (c6_monitoring_dedup 1000 ⟨1, "u", "A", "student"⟩ [⟨1, false, 999⟩] 970
      (by simp) (by with_unfolding_all decide)).1 (by with_unfolding_all decide)
  · exact (c6_monitoring_dedup 1000 ⟨1, "u", "A", "student"⟩ [⟨1, false, 999⟩] 939
      (by simp) (by with_unfolding_all decide)).2 (by with_unfolding_all decide)

/-- Claim C4 (amended): the monitoring cycle processes students
sequentially with one commit at the end: when no student's processing
raises, every student is processed and all reports and events appear;
when processing some student raises, the cycle aborts with an
exception and the reports added for earlier students are lost
(never committed), while their already-sent events remain sent. -/
theorem c4_cycle_abort (now : ℚ) (students : List Student) (answersOf : ℕ → List Answer)
    (lastReportAt : ℕ → Option ℚ) (failsOn : ℕ → Bool) :
    ((∀ s ∈ students.filter (fun s => s.role == "student"), failsOn s.id = false) →
      monitorCycle now students answersOf lastReportAt failsOn =
        ⟨(cycleOutputs now answersOf lastReportAt
            (students.filter (fun s => s.role == "student"))).map Prod.fst,
         (cycleOutputs now answersOf lastReportAt
            (students.filter (fun s => s.role == "student"))).map Prod.snd, none⟩) ∧
    ((∃ s ∈ students.filter (fun s => s.role == "student"), failsOn s.id = true) →
      (monitorCycle now students answersOf lastReportAt failsOn).committedReports = [] ∧
      (monitorCycle now students answersOf lastReportAt failsOn).err ≠ none) := by
  constructor
  · intro h
    have hloop := monitorLoop_no_fail now answersOf lastReportAt failsOn
      (students.filter (fun s => s.role == "student")) h [] []
    simpa [monitorCycle] using hloop
  · intro h
    have hloop := monitorLoop_fail now answersOf lastReportAt failsOn
      (students.filter (fun s => s.role == "student")) h [] []
    exact hloop

/-- Claim C4, counterexample: three at-risk students; processing the
second raises.  The third student is never processed (only one event
was sent, and none for student 3), and the report already produced for
student 1 is lost because the final commit is never reached — students
are not failure-isolated and earlier reports are lost. -/
theorem c4_cycle_abort_cex :
    (monitorCycle 1000 [⟨1, "u1", "A", "student"⟩, ⟨2, "u2", "B", "student"⟩,
        ⟨3, "u3", "C", "student"⟩] (fun _ => [⟨1, false, 0⟩]) (fun _ => none)
        (fun i => i == 2)).committedReports = [] ∧
    (monitorCycle 1000 [⟨1, "u1", "A", "student"⟩, ⟨2, "u2", "B", "student"⟩,
        ⟨3, "u3", "C", "student"⟩] (fun _ => [⟨1, false, 0⟩]) (fun _ => none)
        (fun i => i == 2)).sentEvents.length = 1 ∧
    (monitorCycle 1000 [⟨1, "u1", "A", "student"⟩, ⟨2, "u2", "B", "student"⟩,
        ⟨3, "u3", "C", "student"⟩] (fun _ => [⟨1, false, 0⟩]) (fun _ => none)
        (fun i => i == 2)).sentEvents.all (fun e => e.student_id != 3) = true ∧
    (monitorCycle 1000 [⟨1, "u1", "A", "student"⟩, ⟨2, "u2", "B", "student"⟩,
        ⟨3, "u3", "C", "student"⟩] (fun _ => [⟨1, false, 0⟩]) (fun _ => none)
        (fun i => i == 2)).err = some PyErr.runtimeError := by
  refine ⟨?_, ?_, ?_, ?_⟩ <;> with_unfolding_all decide

/-- Claim C4, witness for the amended theorem: with no failure the
cycle equals the full per-student fold with no error; with a failure on
student 2 the committed reports are empty and an error escapes. -/
theorem c4_cycle_abort_witness :
    monitorCycle 1000 [⟨1, "u1", "A", "student"⟩] (fun _ => [⟨1, false, 0⟩])
      (fun _ => none) (fun _ => false) =
      ⟨(cycleOutputs 1000 (fun _ => [⟨1, false, 0⟩]) (fun _ => none)
          ([⟨1, "u1", "A", "student"⟩].filter (fun s => s.role == "student"))).map Prod.fst,
       (cycleOutputs 1000 (fun _ => [⟨1, false, 0⟩]) (fun _ => none)
          ([⟨1, "u1", "A", "student"⟩].filter (fun s => s.role == "student"))).map Prod.snd,
       none⟩ ∧
    (monitorCycle 1000 [⟨1, "u1", "A", "student"⟩, ⟨2, "u2", "B", "student"⟩]
      (fun _ => [⟨1, false, 0⟩]) (fun _ => none) (fun i => i == 2)).committedReports = [] ∧
    (monitorCycle 1000 [⟨1, "u1", "A", "student"⟩, ⟨2, "u2", "B", "student"⟩]
      (fun _ => [⟨1, false, 0⟩]) (fun _ => none) (fun i => i == 2)).err ≠ none := by
  refine ⟨?_, ?_⟩
  · exact (c4_cycle_abort 1000 [⟨1, "u1", "A", "student"⟩] (fun _ => [⟨1, false, 0⟩])
      (fun _ => none) (fun _ => false)).1 (by decide)
  · exact (c4_cycle_abort 1000 [⟨1, "u1", "A", "student"⟩, ⟨2, "u2", "B", "student"⟩]
      (fun _ => [⟨1, false, 0⟩]) (fun _ => none) (fun i => i == 2)).2 (by decide)

theorem sweepTopic_guard (now : ℚ) (aiEnabled : Bool)
    (chatResult : String → ℚ → Option String) (student : Student)
    (topics : List (ℕ × String)) (logs : List AdaptationLog) (p : ℕ × TopicStat)
    (r : AdaptationLog)
    (hr : sweepTopic now aiEnabled chatResult student topics logs p = some r)
    (l : AdaptationLog) (hl : l ∈ logs) (hsid : l.student_id = r.student_id)
    (htid : l.topic_id = r.topic_id) :
    l.created_at ≤ now - 120 := by
  simp only [sweepTopic] at hr
  split_ifs at hr with h1 h2
  cases hlk : topics.lookup p.1 with
  | none =>
    rw [hlk] at hr
    cases hr
  | some title =>
    rw [hlk] at hr
    simp only [Option.some.injEq] at hr
    subst hr
    have hmem : l.created_at ∈
        (logs.filter (fun l2 => l2.student_id == student.id &&
          l2.topic_id == some p.1)).map AdaptationLog.created_at := by
      refine List.mem_map_of_mem _ (List.mem_filter.mpr ⟨hl, ?_⟩)
      simp [hsid, htid]
    cases hmx : maxTime ((logs.filter (fun l2 => l2.student_id == student.id &&
        l2.topic_id == some p.1)).map AdaptationLog.created_at) with
    | none =>
      rw [maxTime_eq_none _ hmx] at hmem
      cases hmem
    | some t =>
      rw [hmx] at h2
      have ht : ¬ t > now - 120 := by
        intro hgt
        exact h2 (by simp [hgt])
      exact le_trans (le_maxTime _ _ _ hmem hmx) (not_lt.mp ht)

/-- Claim C2 (amended): only the periodic sweep is guarded by the
2-hour dedup window: every row it creates for a (student, topic) pair
has all prior rows for that pair at least 2 hours old.  (The reactive
handler performs no such check; see the counterexample.) -/
theorem c2_sweep_dedup (now : ℚ) (aiEnabled : Bool)
    (chatResult : String → ℚ → Option String) (student : Student)
    (answers : List Answer) (topics : List (ℕ × String)) (logs : List AdaptationLog)
    (r : AdaptationLog)
    (hr : r ∈ periodicSweepStudent now aiEnabled chatResult student answers topics logs)
    (l : AdaptationLog) (hl : l ∈ logs) (hsid : l.student_id = r.student_id)
    (htid : l.topic_id = r.topic_id) :
    l.created_at ≤ now - 120 := by
  simp only [periodicSweepStudent] at hr
  split_ifs at hr with h
  · cases hr
  · obtain ⟨p, hp, hps⟩ := List.mem_filterMap.mp hr
    exact sweepTopic_guard now aiEnabled chatResult student topics logs p r hps l hl hsid htid

/-- Claim C2, witness: a sweep at time 200 with an existing row from
time 0 for the same (student, topic): the sweep does create a row, and
the theorem yields that the existing row is at least 120 minutes old. -/
theorem c2_sweep_dedup_witness :
    (⟨1, some 1, "r", true, 200⟩ : AdaptationLog) ∈
      periodicSweepStudent 200 true (fun _ _ => some "r") ⟨1, "u", "A", "student"⟩
        [⟨1, false, 50⟩] [(1, "T")] [⟨1, some 1, "old", false, 0⟩] ∧
    ((⟨1, some 1, "old", false, 0⟩ : AdaptationLog)).created_at ≤ 200 - 120 := by
  refine ⟨?_, ?_⟩
  · with_unfolding_all decide
  · exact c2_sweep_dedup 200 true (fun _ _ => some "r") ⟨1, "u", "A", "student"⟩
      [⟨1, false, 50⟩] [(1, "T")] [⟨1, some 1, "old", false, 0⟩]
      ⟨1, some 1, "r", true, 200⟩ (by with_unfolding_all decide)
      ⟨1, some 1, "old", false, 0⟩ (List.mem_singleton_self _) rfl rfl

/-- Claim C2, counterexample: the reactive handler is NOT guarded by
the dedup window.  Two `generate_recommendations` commands for the same
student 10 minutes apart each create a per-topic row for the same
(student 1, topic 1): the resulting table violates the 2-hour
invariant. -/
theorem c2_sweep_dedup_cex :
    ¬ adaptDedupOK
      ((_generate_recommendations 0 true (fun _ _ => some "r") 1 "A" 0 [⟨1, false, 0⟩]
          [(1, "T")]).newLogs ++
       (_generate_recommendations 10 true (fun _ _ => some "r") 1 "A" 0 [⟨1, false, 0⟩]
          [(1, "T")]).newLogs) := by
  have hlist : (_generate_recommendations 0 true (fun _ _ => some "r") 1 "A" 0 [⟨1, false, 0⟩]
        [(1, "T")]).newLogs ++
      (_generate_recommendations 10 true (fun _ _ => some "r") 1 "A" 0 [⟨1, false, 0⟩]
        [(1, "T")]).newLogs =
      [⟨1, some 1, "r", true, 0⟩, ⟨1, some 1, "r", true, 10⟩] := by
    with_unfolding_all decide
  intro h
  rw [hlist] at h
  have hcontra := h ⟨1, some 1, "r", true, 0⟩ (by simp) ⟨1, some 1, "r", true, 10⟩ (by simp)
    (by with_unfolding_all decide) rfl rfl (by simp)
  exact absurd hcontra (by with_unfolding_all decide)

/-- Claim C1 (amended): for a parsed `student_risk` event carrying a
`student_id`, the router writes the unconditional inbound log entry
plus exactly one decision entry (both before any send) and then sends
one command to the adaptation worker followed by one to the
notification worker: when both sends return, exactly one command goes
to each; but when the first (adaptation) send raises, the notification
send is never attempted — only the two log writes stand. -/
theorem c1_router_fanout (fs : List (String × Json)) (stId : Json) (sender : String)
    (htype : fs.lookup "type" = some (Json.str "student_risk"))
    (hsid : fs.lookup "student_id" = some stId) :
    ((dispatchRun (some (Json.obj fs)) sender true true).2 = none ∧
     (dispatchRun (some (Json.obj fs)) sender true true).1.countP RAction.isSendAdapt = 1 ∧
     (dispatchRun (some (Json.obj fs)) sender true true).1.countP RAction.isSendNotify = 1 ∧
     (dispatchRun (some (Json.obj fs)) sender true true).1.countP RAction.isLogEvent = 1 ∧
     (dispatchRun (some (Json.obj fs)) sender true true).1.countP RAction.isLogDecision = 1) ∧
    ((dispatchRun (some (Json.obj fs)) sender false true).1.countP RAction.isSendAdapt = 1 ∧
     (dispatchRun (some (Json.obj fs)) sender false true).1.countP RAction.isSendNotify = 0 ∧
     (dispatchRun (some (Json.obj fs)) sender false true).1.countP RAction.isLogEvent = 1 ∧
     (dispatchRun (some (Json.obj fs)) sender false true).1.countP RAction.isLogDecision = 1 ∧
     (dispatchRun (some (Json.obj fs)) sender false true).2 = some PyErr.sendError) := by
  have hrun : ∀ adaptOk notifyOk : Bool,
      dispatchRun (some (Json.obj fs)) sender adaptOk notifyOk =
        (RAction.logEvent (Json.str "student_risk") sender
            (Json.getSafe (Json.obj fs) "student_id") (Json.obj fs) ::
          (handleStudentRisk (Json.obj fs) adaptOk notifyOk).1,
         (handleStudentRisk (Json.obj fs) adaptOk notifyOk).2) := by
    intro a n
    simp [dispatchRun, Json.get, htype, optIsStr, pyFalsy]
  have hhandle : ∀ adaptOk notifyOk : Bool,
      handleStudentRisk (Json.obj fs) adaptOk notifyOk =
        (let student_name := (fs.lookup "student_name").getD (Json.str "")
         let score := (fs.lookup "score").getD (Json.num 0)
         let severity := (fs.lookup "severity").getD (Json.str "warning")
         let sc := pyStr score
         let logActs : List RAction :=
           [.logDecision "student_risk" "monitoring" (some stId)
             (s!"Score={sc}%, dispatching to adaptation and notification")]
         let adaptBody := Json.obj [("type", Json.str "generate_recommendations"),
           ("student_id", stId), ("student_name", student_name), ("score", score)]
         let acts1 := logActs ++ [RAction.sendAdapt adaptBody]
         if !adaptOk then (acts1, some PyErr.sendError)
         else
           let notifyBody := Json.obj [("type", Json.str "create_alert"),
             ("student_id", stId), ("student_name", student_name),
             ("score", score), ("severity", severity)]
           let acts2 := acts1 ++ [RAction.sendNotify notifyBody]
           if !notifyOk then (acts2, some PyErr.sendError) else (acts2, none)) := by
    intro a n
    simp only [handleStudentRisk, Json.item, Json.get, hsid]
  constructor
  · rw [hrun true true, hhandle true true]
    simp [List.countP_cons, List.countP_append, List.countP_nil,
      RAction.isSendAdapt, RAction.isSendNotify, RAction.isLogEvent, RAction.isLogDecision]
  · rw [hrun false true, hhandle false true]
    simp [List.countP_cons, List.countP_append, List.countP_nil,
      RAction.isSendAdapt, RAction.isSendNotify, RAction.isLogEvent, RAction.isLogDecision]

/-- Claim C1, witness: a concrete well-formed `student_risk` event. -/
theorem c1_router_fanout_witness :
    ((dispatchRun (some (Json.obj [("type", Json.str "student_risk"),
        ("student_id", Json.num 5), ("student_name", Json.str "A"),
        ("score", Json.num 25), ("severity", Json.str "danger")]))
        "monitoring@localhost" true true).2 = none ∧
     (dispatchRun (some (Json.obj [("type", Json.str "student_risk"),
        ("student_id", Json.num 5), ("student_name", Json.str "A"),
        ("score", Json.num 25), ("severity", Json.str "danger")]))
        "monitoring@localhost" true true).1.countP RAction.isSendAdapt = 1 ∧
     (dispatchRun (some (Json.obj [("type", Json.str "student_risk"),
        ("student_id", Json.num 5), ("student_name", Json.str "A"),
        ("score", Json.num 25), ("severity", Json.str "danger")]))
        "monitoring@localhost" true true).1.countP RAction.isSendNotify = 1 ∧
     (dispatchRun (some (Json.obj [("type", Json.str "student_risk"),
        ("student_id", Json.num 5), ("student_name", Json.str "A"),
        ("score", Json.num 25), ("severity", Json.str "danger")]))
        "monitoring@localhost" true true).1.countP RAction.isLogEvent = 1 ∧
     (dispatchRun (some (Json.obj [("type", Json.str "student_risk"),
        ("student_id", Json.num 5), ("student_name", Json.str "A"),
        ("score", Json.num 25), ("severity", Json.str "danger")]))
        "monitoring@localhost" true true).1.countP RAction.isLogDecision = 1) ∧
    ((dispatchRun (some (Json.obj [("type", Json.str "student_risk"),
        ("student_id", Json.num 5), ("student_name", Json.str "A"),
        ("score", Json.num 25), ("severity", Json.str "danger")]))
        "monitoring@localhost" false true).1.countP RAction.isSendAdapt = 1 ∧
     (dispatchRun (some (Json.obj [("type", Json.str "student_risk"),
        ("student_id", Json.num 5), ("student_name", Json.str "A"),
        ("score", Json.num 25), ("severity", Json.str "danger")]))
        "monitoring@localhost" false true).1.countP RAction.isSendNotify = 0 ∧
     (dispatchRun (some (Json.obj [("type", Json.str "student_risk"),
        ("student_id", Json.num 5), ("student_name", Json.str "A"),
        ("score", Json.num 25), ("severity", Json.str "danger")]))
        "monitoring@localhost" false true).1.countP RAction.isLogEvent = 1 ∧
     (dispatchRun (some (Json.obj [("type", Json.str "student_risk"),
        ("student_id", Json.num 5), ("student_name", Json.str "A"),
        ("score", Json.num 25), ("severity", Json.str "danger")]))
        "monitoring@localhost" false true).1.countP RAction.isLogDecision = 1 ∧
     (dispatchRun (some (Json.obj [("type", Json.str "student_risk"),
        ("student_id", Json.num 5), ("student_name", Json.str "A"),
        ("score", Json.num 25), ("severity", Json.str "danger")]))
        "monitoring@localhost" false true).2 = some PyErr.sendError) :=
  c1_router_fanout [("type", Json.str "student_risk"), ("student_id", Json.num 5),
    ("student_name", Json.str "A"), ("score", Json.num 25),
    ("severity", Json.str "danger")] (Json.num 5) "monitoring@localhost" rfl rfl

/-- Claim C1, counterexample: when the first send (to the adaptation
worker) raises, the `create_alert` send to the notification worker is
never attempted and the exception escapes the handler — the source has
no exception handling between the two sends, so "both sends are
attempted even if one fails" is false. -/
theorem c1_router_fanout_cex :
    (dispatchRun (some (Json.obj [("type", Json.str "student_risk"),
        ("student_id", Json.num 1), ("student_name", Json.str "A"),
        ("score", Json.num 25), ("severity", Json.str "danger")]))
      "monitoring@localhost" false true).1.countP RAction.isSendNotify = 0 ∧
    (dispatchRun (some (Json.obj [("type", Json.str "student_risk"),
        ("student_id", Json.num 1), ("student_name", Json.str "A"),
        ("score", Json.num 25), ("severity", Json.str "danger")]))
      "monitoring@localhost" false true).2 = some PyErr.sendError := by
  refine ⟨?_, ?_⟩ <;> with_unfolding_all decide

/-- Claim C5, witness: concrete scores on each side of the boundary. -/
theorem c5_severity_boundary_witness :
    severityOf 20 = "danger" ∧ severityOf 75 = "warning" := by
  refine ⟨?_, ?_⟩
  · exact (c5_severity_boundary.1 20).1.mpr (by with_unfolding_all decide)
  · exact (c5_severity_boundary.1 75).2 (by with_unfolding_all decide)
